import Mathlib

/-!
Shallow embedding of `pkg/storage/bloom/v1/bloom_querier.go` (the
`LazyBloomIter` paged cursor) from tennet0505/loki.

The cursor's external collaborators (`Block`, its reader, and
`BloomPageDecoder`) are not part of the source file; they are modelled
here as deterministic oracles faithful to the calls the cursor makes:
`Block.reader.Blooms()` either yields a handle or a fixed error,
`blooms.BloomPageDecoder(r, page, maxSize, metrics)` fails with
`ErrPageTooLarge` when the page header's size exceeds `maxSize` and
otherwise yields a fresh per-page decoder, and a decoder supports
`Seek`, `Next`, `Err`, `At` and `Relinquish`.

To reason about the pooling discipline, the state carries a ghost event
trace (`events`) recording every byte-stream open, page-decoder request
and `Relinquish` call, and a ghost counter (`nextId`) giving each
materialized decoder an identity.  Neither ghost field influences any
control-flow decision of the translated code.
-/

/-- Error values, mirroring Go `error` values the cursor can see.
`wrap` mirrors `errors.Wrap`. -/
inductive ErrKind where
  | pageTooLarge
  | headerErr
  | streamErr
  | decodeErr
  | outOfRange
  | wrap (msg : String) (e : ErrKind)
  deriving DecidableEq, Repr

def msgBlooms : String := "getting blooms reader"

def msgLoadPage : String := "loading bloom page"

/-- `errors.Is(e, ErrPageTooLarge)`: unwraps the `errors.Wrap` chain. -/
def ErrKind.isPTL : ErrKind → Bool
  | .pageTooLarge => true
  | .wrap _ e => e.isPTL
  | _ => false

/-- `errors.Is(it.err, ErrPageTooLarge)` on the cursor's `error` field,
which may be `nil`. -/
def errIsPTL : Option ErrKind → Bool
  | none => false
  | some e => e.isPTL

/-- A decoded record; opaque to the cursor, identified here by the page
it came from and the decoder position that produced it. -/
structure Bloom where
  page : Nat
  idx : Nat
  deriving DecidableEq, Repr

/-- `BloomOffset`: a (page index, byte offset) coordinate. -/
structure BloomOffset where
  Page : Nat
  ByteOffset : Nat
  deriving DecidableEq, Repr

/-- `BloomPageDecoder`: a materialized cursor over one page.
`id` is the ghost identity of this acquisition, `n` the number of
records in the page, `pos` the intra-page position, `failAt` an oracle
position at which decoding fails, `decodeError` the page-local error
channel (`curPage.Err()`). -/
structure BloomPageDecoder where
  id : Nat
  page : Nat
  n : Nat
  pos : Nat
  failAt : Option Nat
  decodeError : Option ErrKind
  deriving DecidableEq, Repr

/-- `curPage.Next()`: advance; `false` at end-of-page or on decode
error (which sets the page-local error channel). -/
def BloomPageDecoder.next (d : BloomPageDecoder) : BloomPageDecoder × Bool :=
  if d.decodeError.isSome then (d, false)
  else if d.failAt = some d.pos then
    ({ d with decodeError := some .decodeErr }, false)
  else if d.pos < d.n then ({ d with pos := d.pos + 1 }, true)
  else (d, false)

/-- `curPage.Seek(byteOffset)`: in-page repositioning of the
already-materialized buffer. -/
def BloomPageDecoder.seek (d : BloomPageDecoder) (byteOffset : Nat) : BloomPageDecoder :=
  { d with pos := byteOffset }

/-- `curPage.Err()`: the page-local error channel. -/
def BloomPageDecoder.errF (d : BloomPageDecoder) : Option ErrKind :=
  d.decodeError

/-- `curPage.At()`: the current record. -/
def BloomPageDecoder.atF (d : BloomPageDecoder) : Bloom :=
  ⟨d.page, d.pos⟩

/-- Per-page oracle data held by the block: the header size (checked
against the cursor's max page size), the number of records, an optional
decode-failure position, and an optional construction error. -/
structure PageSpec where
  size : Nat
  records : Nat
  failAt : Option Nat
  mkErr : Option ErrKind
  deriving DecidableEq, Repr

/-- `Block`: the external collaborator owning page metadata and the
decoder factory.  `headersErr` is the result of `LoadHeaders`,
`bloomsErr` the result of `reader.Blooms()`, `pageHeaders` the loaded
`blooms.pageHeaders`. -/
structure Block where
  headersErr : Option ErrKind
  bloomsErr : Option ErrKind
  pageHeaders : List PageSpec
  deriving DecidableEq, Repr

/-- `b.blooms.BloomPageDecoder(r, page, maxSize, metrics)`: fails with
`ErrPageTooLarge` when the page's size exceeds `maxSize`; otherwise
returns a fresh decoder (ghost identity `fresh`) positioned at the page
start. -/
def Block.bloomPageDecoder (b : Block) (page maxSize fresh : Nat) :
    Except ErrKind BloomPageDecoder :=
  match b.pageHeaders.get? page with
  | none => .error .outOfRange
  | some ps =>
    if maxSize < ps.size then .error .pageTooLarge
    else match ps.mkErr with
      | some e => .error e
      | none => .ok ⟨fresh, page, ps.records, 0, ps.failAt, none⟩

/-- Ghost trace events: byte-stream opens (`reader.Blooms()`),
page-decoder requests, and `Relinquish` calls (by decoder identity). -/
inductive Event where
  | openStream
  | requestPage (page : Nat)
  | relinquish (id : Nat)
  deriving DecidableEq, Repr

/-- Number of `Relinquish` calls on decoder identity `i` in a trace. -/
def countRelinquish (i : Nat) (evs : List Event) : Nat :=
  (evs.filter (fun e => e = Event.relinquish i)).length

/-- `LazyBloomIter`: the cursor state.  `inited` models the Go field
`initialized`; `nextId` and `events` are ghost instrumentation. -/
structure LazyBloomIter where
  usePool : Bool
  b : Block
  m : Nat
  inited : Bool
  err : Option ErrKind
  curPageIndex : Nat
  curPage : Option BloomPageDecoder
  nextId : Nat
  events : List Event
  deriving DecidableEq, Repr

/-- `NewLazyBloomIter(b, pool, maxSize)`: zero-valued state fields. -/
def NewLazyBloomIter (b : Block) (pool : Bool) (maxSize : Nat) : LazyBloomIter :=
  { usePool := pool, b := b, m := maxSize, inited := false, err := none,
    curPageIndex := 0, curPage := none, nextId := 0, events := [] }

/-- `(it *LazyBloomIter) ensureInit()`. -/
def LazyBloomIter.ensureInit (it : LazyBloomIter) : LazyBloomIter :=
  if !it.inited then
    let it' := match it.b.headersErr with
      | some e => { it with err := some e }
      | none => it
    { it' with inited := true }
  else it

/-- `it.curPage.Relinquish()` with ghost event recording. -/
def LazyBloomIter.relinquishCur (it : LazyBloomIter) : LazyBloomIter :=
  match it.curPage with
  | some d => { it with events := it.events ++ [Event.relinquish d.id] }
  | none => it

/-- The `Seek` step: reset error from any previous seek/next that
yielded pages too large (`errors.Is(it.err, ErrPageTooLarge)`). -/
def LazyBloomIter.clearPTL (it : LazyBloomIter) : LazyBloomIter :=
  if errIsPTL it.err then { it with err := none } else it

/-- The `Seek` step "drop the current page if it exists and we're using
the pool". -/
def LazyBloomIter.relinquishIfPooled (it : LazyBloomIter) : LazyBloomIter :=
  if it.curPage ≠ none ∧ it.usePool then it.relinquishCur else it

/-- The page-load part of `Seek`: `r, err := it.b.reader.Blooms()`,
then `decoder, err := it.b.blooms.BloomPageDecoder(r, offset.Page,
it.m, it.b.metrics)`, then `it.curPage.Seek(offset.ByteOffset)` on
success; on either failure the wrapped error is recorded and the
function returns without repositioning. -/
def LazyBloomIter.loadPage (it : LazyBloomIter) (offset : BloomOffset) : LazyBloomIter :=
  let it := { it with events := it.events ++ [Event.openStream] }
  match it.b.bloomsErr with
  | some e => { it with err := some (.wrap msgBlooms e) }
  | none =>
    let it := { it with events := it.events ++ [Event.requestPage offset.Page] }
    match it.b.bloomPageDecoder offset.Page it.m it.nextId with
    | .error e => { it with err := some (.wrap msgLoadPage e) }
    | .ok d =>
      let it := { it with curPageIndex := offset.Page, curPage := some d,
                          nextId := it.nextId + 1 }
      -- it.curPage.Seek(offset.ByteOffset)
      { it with curPage := it.curPage.map (·.seek offset.ByteOffset) }

/-- The body of `Seek` after lazy init and the page-too-large reset. -/
def LazyBloomIter.seekBody (it : LazyBloomIter) (offset : BloomOffset) : LazyBloomIter :=
  -- if we need a different page or the current page hasn't been loaded,
  -- load the desired page
  if it.curPageIndex ≠ offset.Page ∨ it.curPage = none then
    (it.relinquishIfPooled).loadPage offset
  else
    -- it.curPage.Seek(offset.ByteOffset)
    { it with curPage := it.curPage.map (·.seek offset.ByteOffset) }

/-- `(it *LazyBloomIter) Seek(offset BloomOffset)`: lazy init, then the
page-too-large reset, then the load/reposition body. -/
def LazyBloomIter.Seek (it₀ : LazyBloomIter) (offset : BloomOffset) : LazyBloomIter :=
  it₀.ensureInit.clearPTL.seekBody offset

/-- The body of `next()`'s `for` loop, fuel-bounded.  With fuel at
least `2 * (pageCount - curPageIndex) + 1` the fuel never runs out, so
this is exactly the Go loop. -/
def LazyBloomIter.nextLoop : Nat → LazyBloomIter → LazyBloomIter × Bool
  | 0, it => (it, false)
  | fuel + 1, it =>
    if it.curPageIndex < it.b.pageHeaders.length then
      match it.curPage with
      | none =>
        -- first access of next page
        let it := { it with events := it.events ++ [Event.openStream] }
        match it.b.bloomsErr with
        | some e => ({ it with err := some (.wrap msgBlooms e) }, false)
        | none =>
          let it := { it with events := it.events ++ [Event.requestPage it.curPageIndex] }
          match it.b.bloomPageDecoder it.curPageIndex it.m it.nextId with
          | .error e => ({ it with err := some e }, false)
          | .ok d =>
            LazyBloomIter.nextLoop fuel
              { it with curPage := some d, nextId := it.nextId + 1 }
      | some d =>
        match d.next with
        | (d', true) => ({ it with curPage := some d' }, true)
        | (d', false) =>
          if d'.errF.isSome then
            -- there was an error
            ({ it with curPage := some d' }, false)
          else
            -- we've exhausted the current page, progress to next
            let it := { it with curPage := some d', curPageIndex := it.curPageIndex + 1 }
            let it := if it.usePool then it.relinquishCur else it
            LazyBloomIter.nextLoop fuel { it with curPage := none }
    else
      -- finished last page
      (it, false)

/-- `(it *LazyBloomIter) next() bool`. -/
def LazyBloomIter.nextF (it : LazyBloomIter) : LazyBloomIter × Bool :=
  if it.err.isSome then (it, false)
  else it.nextLoop (2 * (it.b.pageHeaders.length - it.curPageIndex) + 1)

/-- `(it *LazyBloomIter) Next() bool`. -/
def LazyBloomIter.Next (it₀ : LazyBloomIter) : LazyBloomIter × Bool :=
  let it := it₀.ensureInit
  if it.err.isSome then (it, false)
  else it.nextF

/-- `(it *LazyBloomIter) At() *Bloom`: the Go code dereferences
`it.curPage` unconditionally; the embedding is defined (`some`) exactly
when a page decoder is held. -/
def LazyBloomIter.At (it : LazyBloomIter) : Option Bloom :=
  it.curPage.map (·.atF)

/-- `(it *LazyBloomIter) Err() error`. -/
def LazyBloomIter.ErrF (it : LazyBloomIter) : Option ErrKind :=
  match it.err with
  | some e => some e
  | none =>
    match it.curPage with
    | some d => d.errF
    | none => none

/-! ## Concrete fixtures used by witnesses and counterexamples -/

/-- A page that decodes fine: 3 records, header size 5. -/
def psGood : PageSpec := ⟨5, 3, none, none⟩

/-- A page whose header size 100 exceeds the max size 10 used below. -/
def psBig : PageSpec := ⟨100, 3, none, none⟩

/-- A page whose decode fails at intra-page position 1. -/
def psBad : PageSpec := ⟨5, 3, some 1, none⟩

/-- Block for the double-relinquish trace: page 0 oversized, pages 1
and 2 fine. -/
def blkC1 : Block := ⟨none, none, [psBig, psGood, psGood]⟩

/-- Seek to page 1 succeeds: decoder identity 0 is held. -/
def c1s1 : LazyBloomIter := (NewLazyBloomIter blkC1 true 10).Seek ⟨1, 0⟩

/-- Seek to oversized page 0: Relinquishes decoder 0, then fails with
page-too-large, leaving the released decoder in `curPage`. -/
def c1s2 : LazyBloomIter := c1s1.Seek ⟨0, 0⟩

/-- Seek to page 2: Relinquishes the already-released decoder 0 again. -/
def c1s3 : LazyBloomIter := c1s2.Seek ⟨2, 0⟩

/-- A block of two pages where page 0's decode fails at position 1. -/
def blkC4 : Block := ⟨none, none, [psBad, psGood]⟩

/-- A cursor holding page 0's decoder right before the failing advance. -/
def c4state : LazyBloomIter :=
  { usePool := false, b := blkC4, m := 10, inited := true, err := none,
    curPageIndex := 0, curPage := some ⟨0, 0, 3, 1, some 1, none⟩,
    nextId := 1, events := [] }

/-- A one-good-page block. -/
def blkG : Block := ⟨none, none, [psGood]⟩

/-- A failed cursor (a non-page-too-large error recorded) over a block
whose page 0 is perfectly loadable. -/
def c3state : LazyBloomIter :=
  { usePool := false, b := blkG, m := 10, inited := true, err := some .decodeErr,
    curPageIndex := 0, curPage := none, nextId := 0, events := [] }

/-- A cursor with a page-too-large error recorded (as `Seek` records
it: wrapped), over a block whose page 0 is loadable. -/
def cw2 : LazyBloomIter :=
  { usePool := false, b := blkG, m := 10, inited := true,
    err := some (.wrap msgLoadPage .pageTooLarge),
    curPageIndex := 0, curPage := none, nextId := 0, events := [] }

/-- A cursor holding page 0's decoder at position 1. -/
def c5state : LazyBloomIter :=
  { usePool := true, b := blkG, m := 10, inited := true, err := none,
    curPageIndex := 0, curPage := some ⟨0, 0, 3, 1, none, none⟩,
    nextId := 1, events := [Event.openStream, Event.requestPage 0] }

/-- A cursor that has walked past the single page of its block. -/
def c6state : LazyBloomIter :=
  { usePool := true, b := blkG, m := 10, inited := true, err := none,
    curPageIndex := 1, curPage := none, nextId := 1,
    events := [Event.openStream, Event.requestPage 0, Event.relinquish 0] }

/-- A failed cursor (cursor-level error recorded) also holding a page. -/
def c7a : LazyBloomIter :=
  { usePool := false, b := blkG, m := 10, inited := true,
    err := some .headerErr, curPageIndex := 0,
    curPage := some ⟨0, 0, 3, 0, none, some .decodeErr⟩, nextId := 1, events := [] }

/-- A clean cursor holding a page whose local channel has an error. -/
def c7b : LazyBloomIter :=
  { usePool := false, b := blkG, m := 10, inited := true, err := none,
    curPageIndex := 0, curPage := some ⟨0, 0, 3, 0, none, some .decodeErr⟩,
    nextId := 1, events := [] }

/-- A clean cursor holding no page. -/
def c7c : LazyBloomIter :=
  { usePool := false, b := blkG, m := 10, inited := false, err := none,
    curPageIndex := 0, curPage := none, nextId := 0, events := [] }

/-- A cursor about to seek into the oversized page 0 of `blkC1`. -/
def c8state : LazyBloomIter :=
  { usePool := false, b := blkC1, m := 10, inited := true, err := none,
    curPageIndex := 1, curPage := none, nextId := 0, events := [] }

/-! ## Plumbing lemmas -/

theorem LazyBloomIter.ensureInit_of_inited (s : LazyBloomIter) (h : s.inited = true) :
    s.ensureInit = s := by
  simp [ensureInit, h]

@[simp] theorem LazyBloomIter.clearPTL_curPage (s : LazyBloomIter) :
    s.clearPTL.curPage = s.curPage := by
  unfold clearPTL; split <;> rfl

@[simp] theorem LazyBloomIter.clearPTL_curPageIndex (s : LazyBloomIter) :
    s.clearPTL.curPageIndex = s.curPageIndex := by
  unfold clearPTL; split <;> rfl

@[simp] theorem LazyBloomIter.clearPTL_events (s : LazyBloomIter) :
    s.clearPTL.events = s.events := by
  unfold clearPTL; split <;> rfl

@[simp] theorem LazyBloomIter.clearPTL_nextId (s : LazyBloomIter) :
    s.clearPTL.nextId = s.nextId := by
  unfold clearPTL; split <;> rfl

@[simp] theorem LazyBloomIter.clearPTL_b (s : LazyBloomIter) :
    s.clearPTL.b = s.b := by
  unfold clearPTL; split <;> rfl

@[simp] theorem LazyBloomIter.clearPTL_m (s : LazyBloomIter) :
    s.clearPTL.m = s.m := by
  unfold clearPTL; split <;> rfl

@[simp] theorem LazyBloomIter.clearPTL_usePool (s : LazyBloomIter) :
    s.clearPTL.usePool = s.usePool := by
  unfold clearPTL; split <;> rfl

@[simp] theorem LazyBloomIter.clearPTL_inited (s : LazyBloomIter) :
    s.clearPTL.inited = s.inited := by
  unfold clearPTL; split <;> rfl

theorem LazyBloomIter.clearPTL_err (s : LazyBloomIter) :
    s.clearPTL.err = if errIsPTL s.err then none else s.err := by
  unfold clearPTL; split <;> simp_all

theorem LazyBloomIter.Seek_of_inited (s : LazyBloomIter) (off : BloomOffset)
    (h : s.inited = true) : s.Seek off = s.clearPTL.seekBody off := by
  rw [Seek, ensureInit_of_inited s h]

theorem LazyBloomIter.seekBody_same (s : LazyBloomIter) (d : BloomPageDecoder)
    (off : BloomOffset) (hcur : s.curPage = some d) (hpage : s.curPageIndex = off.Page) :
    s.seekBody off = { s with curPage := some (d.seek off.ByteOffset) } := by
  have hc : ¬(s.curPageIndex ≠ off.Page ∨ s.curPage = none) := by simp [hcur, hpage]
  unfold seekBody
  rw [if_neg hc]
  simp [hcur]

theorem LazyBloomIter.relinquishCur_fields (s : LazyBloomIter) :
    s.relinquishCur.err = s.err ∧ s.relinquishCur.b = s.b ∧
    s.relinquishCur.m = s.m ∧ s.relinquishCur.nextId = s.nextId ∧
    s.relinquishCur.curPage = s.curPage ∧
    s.relinquishCur.curPageIndex = s.curPageIndex := by
  unfold relinquishCur; cases h : s.curPage <;> simp [h]

theorem LazyBloomIter.relinquishIfPooled_fields (s : LazyBloomIter) :
    s.relinquishIfPooled.err = s.err ∧ s.relinquishIfPooled.b = s.b ∧
    s.relinquishIfPooled.m = s.m ∧ s.relinquishIfPooled.nextId = s.nextId ∧
    s.relinquishIfPooled.curPage = s.curPage ∧
    s.relinquishIfPooled.curPageIndex = s.curPageIndex := by
  unfold relinquishIfPooled
  split
  · exact s.relinquishCur_fields
  · exact ⟨rfl, rfl, rfl, rfl, rfl, rfl⟩

theorem LazyBloomIter.relinquishIfPooled_pooled (s : LazyBloomIter)
    (d : BloomPageDecoder) (hcur : s.curPage = some d) (hpool : s.usePool = true) :
    s.relinquishIfPooled = { s with events := s.events ++ [Event.relinquish d.id] } := by
  unfold relinquishIfPooled relinquishCur
  rw [if_pos ⟨by simp [hcur], hpool⟩, hcur]

theorem LazyBloomIter.loadPage_factory_err (s : LazyBloomIter)
    (off : BloomOffset) (e : ErrKind)
    (hr : s.b.bloomsErr = none)
    (hf : s.b.bloomPageDecoder off.Page s.m s.nextId = Except.error e) :
    s.loadPage off =
      { s with err := some (.wrap msgLoadPage e),
               events := s.events ++ [Event.openStream, Event.requestPage off.Page] } := by
  unfold loadPage
  simp [hr, hf]

theorem LazyBloomIter.loadPage_events (s : LazyBloomIter) (off : BloomOffset)
    (hr : s.b.bloomsErr = none) :
    (s.loadPage off).events =
      s.events ++ [Event.openStream, Event.requestPage off.Page] := by
  unfold loadPage
  rcases hfac : s.b.bloomPageDecoder off.Page s.m s.nextId with e' | d' <;>
    simp [hr, hfac]

theorem LazyBloomIter.loadPage_err_isSome (s : LazyBloomIter) (off : BloomOffset)
    (he : s.err.isSome = true) : ((s.loadPage off).err).isSome = true := by
  unfold loadPage
  rcases hb : s.b.bloomsErr with _ | eb
  · rcases hfac : s.b.bloomPageDecoder off.Page s.m s.nextId with e' | d' <;>
      simp [hb, hfac, he]
  · simp [hb]

theorem LazyBloomIter.seekBody_change_factory_err (s : LazyBloomIter)
    (d : BloomPageDecoder) (off : BloomOffset) (e : ErrKind)
    (hcur : s.curPage = some d) (hpool : s.usePool = true)
    (hdiff : s.curPageIndex ≠ off.Page)
    (hr : s.b.bloomsErr = none)
    (hf : s.b.bloomPageDecoder off.Page s.m s.nextId = Except.error e) :
    s.seekBody off =
      { s with err := some (.wrap msgLoadPage e),
               events := s.events ++ [Event.relinquish d.id, Event.openStream,
                                      Event.requestPage off.Page] } := by
  unfold seekBody
  rw [if_pos (Or.inl hdiff), relinquishIfPooled_pooled s d hcur hpool]
  unfold loadPage
  simp [hr, hf]

theorem LazyBloomIter.seekBody_events_change (s : LazyBloomIter)
    (d : BloomPageDecoder) (off : BloomOffset)
    (hcur : s.curPage = some d) (hpool : s.usePool = true)
    (hdiff : s.curPageIndex ≠ off.Page)
    (hr : s.b.bloomsErr = none) :
    (s.seekBody off).events =
      s.events ++ [Event.relinquish d.id, Event.openStream,
                   Event.requestPage off.Page] := by
  unfold seekBody
  rw [if_pos (Or.inl hdiff), relinquishIfPooled_pooled s d hcur hpool]
  unfold loadPage
  rcases hfac : s.b.bloomPageDecoder off.Page s.m s.nextId with e' | d' <;>
    simp [hr, hfac]

theorem LazyBloomIter.seekBody_err_isSome (s : LazyBloomIter) (off : BloomOffset)
    (he : s.err.isSome = true) : ((s.seekBody off).err).isSome = true := by
  unfold seekBody
  split
  · exact loadPage_err_isSome _ _ (by rw [(s.relinquishIfPooled_fields).1]; exact he)
  · simpa using he

theorem LazyBloomIter.nextF_end (s : LazyBloomIter)
    (he : s.err = none) (hend : s.b.pageHeaders.length ≤ s.curPageIndex) :
    s.nextF = (s, false) := by
  unfold nextF nextLoop
  simp [he, Nat.not_lt.mpr hend]

theorem LazyBloomIter.nextF_page_local_err (s : LazyBloomIter)
    (d d' : BloomPageDecoder)
    (he : s.err = none) (hlt : s.curPageIndex < s.b.pageHeaders.length)
    (hcur : s.curPage = some d) (hn : d.next = (d', false))
    (hpe : d'.errF.isSome = true) :
    s.nextF = ({ s with curPage := some d' }, false) := by
  unfold nextF nextLoop
  simp [he, hlt, hcur, hn, hpe]

theorem LazyBloomIter.Next_short (s : LazyBloomIter) (hinit : s.inited = true)
    (he : s.err.isSome = true) : s.Next = (s, false) := by
  unfold Next
  rw [ensureInit_of_inited s hinit]
  simp [he]

theorem LazyBloomIter.Next_of_no_err (s : LazyBloomIter) (hinit : s.inited = true)
    (he : s.err = none) : s.Next = s.nextF := by
  unfold Next
  rw [ensureInit_of_inited s hinit]
  simp [he]

theorem countRelinquish_append (i : Nat) (xs ys : List Event) :
    countRelinquish i (xs ++ ys) = countRelinquish i xs + countRelinquish i ys := by
  simp [countRelinquish, List.filter_append]

@[simp] theorem countRelinquish_nil (i : Nat) : countRelinquish i [] = 0 := rfl

@[simp] theorem countRelinquish_cons_self (i : Nat) (evs : List Event) :
    countRelinquish i (Event.relinquish i :: evs) = countRelinquish i evs + 1 := by
  simp [countRelinquish, List.filter_cons]

@[simp] theorem countRelinquish_cons_open (i : Nat) (evs : List Event) :
    countRelinquish i (Event.openStream :: evs) = countRelinquish i evs := by
  simp [countRelinquish, List.filter_cons]

@[simp] theorem countRelinquish_cons_req (i p : Nat) (evs : List Event) :
    countRelinquish i (Event.requestPage p :: evs) = countRelinquish i evs := by
  simp [countRelinquish, List.filter_cons]

theorem LazyBloomIter.Seek_same_page (s : LazyBloomIter) (d : BloomPageDecoder)
    (off : BloomOffset)
    (hinit : s.inited = true) (hcur : s.curPage = some d)
    (hpage : s.curPageIndex = off.Page) :
    (s.Seek off).curPage = some (d.seek off.ByteOffset) ∧
    (s.Seek off).events = s.events ∧
    (s.Seek off).nextId = s.nextId ∧
    (s.Seek off).curPageIndex = s.curPageIndex := by
  rw [LazyBloomIter.Seek_of_inited s off hinit,
      LazyBloomIter.seekBody_same s.clearPTL d off (by simp [hcur]) (by simp [hpage])]
  simp [hpage]

theorem LazyBloomIter.Seek_change_events (s : LazyBloomIter) (d : BloomPageDecoder)
    (off : BloomOffset)
    (hinit : s.inited = true) (hcur : s.curPage = some d)
    (hpool : s.usePool = true) (hdiff : s.curPageIndex ≠ off.Page)
    (hr : s.b.bloomsErr = none) :
    (s.Seek off).events =
      s.events ++ [Event.relinquish d.id, Event.openStream,
                   Event.requestPage off.Page] := by
  rw [LazyBloomIter.Seek_of_inited s off hinit,
      LazyBloomIter.seekBody_events_change s.clearPTL d off (by simpa using hcur)
        (by simpa using hpool) (by simpa using hdiff) (by simpa using hr)]
  simp

/-! ## The claims -/

/-- C2: `ErrPageTooLarge` is the only recoverable error kind and only
`Seek` clears it: when the recorded error satisfies
`errors.Is(err, ErrPageTooLarge)`, a `Seek` to any target behaves
exactly as if the error had been cleared at the start of the call,
whereas `Next` with any recorded error (page-too-large included)
returns `false` leaving the state — the error in particular —
untouched. -/
theorem claim_C2_ptl_recovery (s : LazyBloomIter) (t : BloomOffset) (e : ErrKind)
    (hinit : s.inited = true) :
    (errIsPTL s.err = true →
      s.Seek t = LazyBloomIter.Seek { s with err := none } t) ∧
    (s.err = some e → s.Next = (s, false)) := by
  constructor
  · intro h
    rw [LazyBloomIter.Seek_of_inited s t hinit,
        LazyBloomIter.Seek_of_inited _ t (by simpa using hinit)]
    rw [show s.clearPTL = { s with err := none } from by
          unfold LazyBloomIter.clearPTL; rw [if_pos h],
        show ({ s with err := none } : LazyBloomIter).clearPTL
            = { s with err := none } from by
          unfold LazyBloomIter.clearPTL; simp [errIsPTL]]
  · intro h
    exact LazyBloomIter.Next_short s hinit (by simp [h])

/-- Witness for C2 at a concrete page-too-large-failed cursor. -/
theorem claim_C2_witness :
    cw2.Seek ⟨0, 0⟩ = LazyBloomIter.Seek { cw2 with err := none } ⟨0, 0⟩ ∧
    cw2.Next = (cw2, false) :=
  ⟨(claim_C2_ptl_recovery cw2 ⟨0, 0⟩ (.wrap msgLoadPage .pageTooLarge) rfl).1
      (by decide),
   (claim_C2_ptl_recovery cw2 ⟨0, 0⟩ (.wrap msgLoadPage .pageTooLarge) rfl).2 rfl⟩

/-- C3 counterexample: with a non-page-too-large error recorded
(`decodeErr`), `Seek` does NOT short-circuit: it still acquires the
target page and repositions it (successful positioning), with the
recorded error left in place.  The claim's "performs no further
successful positioning" is therefore false on the code. -/
theorem claim_C3_counterexample :
    c3state.err = some ErrKind.decodeErr ∧
    ErrKind.decodeErr.isPTL = false ∧
    (c3state.Seek ⟨0, 2⟩).curPage = some ⟨0, 0, 3, 2, none, none⟩ ∧
    (c3state.Seek ⟨0, 2⟩).curPageIndex = 0 ∧
    (c3state.Seek ⟨0, 2⟩).err = some ErrKind.decodeErr := by
  decide

/-- C3 amended: once a non-page-too-large error is recorded, `Next`
short-circuits to failure (returns `false` immediately, state
untouched); `Seek` never clears such an error — after any `Seek` the
cursor still has an error recorded, so `Err()` keeps reporting failure
— but `Seek` does not short-circuit: it may still acquire and
reposition pages (see the counterexample). -/
theorem claim_C3_amended (s : LazyBloomIter) (t : BloomOffset) (e : ErrKind)
    (hinit : s.inited = true) (he : s.err = some e) (hptl : e.isPTL = false) :
    s.Next = (s, false) ∧ ((s.Seek t).err).isSome = true := by
  refine ⟨LazyBloomIter.Next_short s hinit (by simp [he]), ?_⟩
  rw [LazyBloomIter.Seek_of_inited s t hinit]
  apply LazyBloomIter.seekBody_err_isSome
  rw [LazyBloomIter.clearPTL_err]
  simp [he, errIsPTL, hptl]

/-- Witness for the amended C3 at a concrete failed cursor. -/
theorem claim_C3_amended_witness :
    c3state.Next = (c3state, false) ∧
    ((c3state.Seek ⟨0, 0⟩).err).isSome = true :=
  claim_C3_amended c3state ⟨0, 0⟩ ErrKind.decodeErr rfl rfl rfl

/-- C4 counterexample: the held page's advance returns `false` with a
page-local error raised, and `next` returns `false` — but the error is
NOT recorded into the cursor-level error state (`err` stays `none`; it
is only visible through `Err()`'s delegation), and the cursor is not
terminal: a later `Seek` to page 1 positions successfully and the
following `next` returns `true`. -/
theorem claim_C4_counterexample :
    ((⟨0, 0, 3, 1, some 1, none⟩ : BloomPageDecoder).next
        = (⟨0, 0, 3, 1, some 1, some ErrKind.decodeErr⟩, false)) ∧
    (c4state.nextF).2 = false ∧
    (c4state.nextF).1.err = none ∧
    (c4state.nextF).1.ErrF = some ErrKind.decodeErr ∧
    ((c4state.nextF).1.Seek ⟨1, 0⟩).err = none ∧
    (((c4state.nextF).1.Seek ⟨1, 0⟩).nextF).2 = true := by
  decide

/-- C4 amended: whenever the held page's advance returns `false` and
the page reports a page-local error, `next` returns `false` and leaves
the page-local error where it is: the cursor-level error state stays
`none` (the error is not promoted), and it is surfaced only through
`Err()`'s delegation to the held page. -/
theorem claim_C4_amended (s : LazyBloomIter) (d d' : BloomPageDecoder) (e : ErrKind)
    (he : s.err = none) (hlt : s.curPageIndex < s.b.pageHeaders.length)
    (hcur : s.curPage = some d) (hn : d.next = (d', false))
    (hpe : d'.errF = some e) :
    s.nextF = ({ s with curPage := some d' }, false) ∧
    ({ s with curPage := some d' } : LazyBloomIter).err = none ∧
    LazyBloomIter.ErrF { s with curPage := some d' } = some e := by
  refine ⟨LazyBloomIter.nextF_page_local_err s d d' he hlt hcur hn (by simp [hpe]),
          by simp [he], ?_⟩
  simp [LazyBloomIter.ErrF, he, hpe]

/-- Witness for the amended C4 at the concrete decode-failing page. -/
theorem claim_C4_amended_witness :
    c4state.nextF
        = ({ c4state with curPage := some ⟨0, 0, 3, 1, some 1, some ErrKind.decodeErr⟩ },
           false) ∧
    ({ c4state with curPage := some ⟨0, 0, 3, 1, some 1, some ErrKind.decodeErr⟩ }
        : LazyBloomIter).err = none ∧
    LazyBloomIter.ErrF
        { c4state with curPage := some ⟨0, 0, 3, 1, some 1, some ErrKind.decodeErr⟩ }
      = some ErrKind.decodeErr :=
  claim_C4_amended c4state ⟨0, 0, 3, 1, some 1, none⟩
    ⟨0, 0, 3, 1, some 1, some ErrKind.decodeErr⟩ ErrKind.decodeErr
    rfl (by decide) rfl (by decide) rfl

/-- C5: `Seek` to a coordinate on the already-held page repositions in
place via the held decoder's `Seek(byteOffset)`: no `Relinquish`, no
byte-stream open, no page-decoder request (the ghost trace is
unchanged and no fresh decoder identity is consumed), and the page
index is unchanged. -/
theorem claim_C5_decoder_reuse (s : LazyBloomIter) (d : BloomPageDecoder)
    (off : BloomOffset)
    (hinit : s.inited = true) (hcur : s.curPage = some d)
    (hpage : s.curPageIndex = off.Page) :
    (s.Seek off).curPage = some (d.seek off.ByteOffset) ∧
    (s.Seek off).events = s.events ∧
    (s.Seek off).nextId = s.nextId ∧
    (s.Seek off).curPageIndex = s.curPageIndex :=
  LazyBloomIter.Seek_same_page s d off hinit hcur hpage

/-- Witness for C5: an in-page reseek to byte offset 2. -/
theorem claim_C5_witness :
    (c5state.Seek ⟨0, 2⟩).curPage
        = some (BloomPageDecoder.seek ⟨0, 0, 3, 1, none, none⟩ 2) ∧
    (c5state.Seek ⟨0, 2⟩).events = c5state.events ∧
    (c5state.Seek ⟨0, 2⟩).nextId = c5state.nextId ∧
    (c5state.Seek ⟨0, 2⟩).curPageIndex = c5state.curPageIndex :=
  claim_C5_decoder_reuse c5state ⟨0, 0, 3, 1, none, none⟩ ⟨0, 2⟩ rfl rfl rfl

/-- C6: when the page count is exhausted with no cursor-level error and
no page-local error, `Next` returns `false` with the state untouched
and `Err()` reports `nil`: clean end-of-data, not a failure. -/
theorem claim_C6_clean_exhaustion (s : LazyBloomIter)
    (hinit : s.inited = true) (herr : s.err = none)
    (hend : s.b.pageHeaders.length ≤ s.curPageIndex)
    (hpg : ∀ d, s.curPage = some d → d.errF = none) :
    s.Next = (s, false) ∧ s.ErrF = none := by
  refine ⟨?_, ?_⟩
  · rw [LazyBloomIter.Next_of_no_err s hinit herr]
    exact LazyBloomIter.nextF_end s herr hend
  · cases hc : s.curPage with
    | none => simp [LazyBloomIter.ErrF, herr, hc]
    | some d => simp [LazyBloomIter.ErrF, herr, hc, hpg d hc]

/-- Witness for C6 at a concrete exhausted cursor. -/
theorem claim_C6_witness : c6state.Next = (c6state, false) ∧ c6state.ErrF = none :=
  claim_C6_clean_exhaustion c6state rfl rfl (by decide)
    (fun d h => Option.noConfusion h)

/-- C7: `Err()` returns the cursor-level recorded error when set;
otherwise, when a page decoder is held, the page's local error;
otherwise `nil`. -/
theorem claim_C7_err_priority (s : LazyBloomIter) (e : ErrKind)
    (d : BloomPageDecoder) :
    (s.err = some e → s.ErrF = some e) ∧
    (s.err = none → s.curPage = some d → s.ErrF = d.errF) ∧
    (s.err = none → s.curPage = none → s.ErrF = none) := by
  refine ⟨fun h => by simp [LazyBloomIter.ErrF, h],
          fun h hc => by simp [LazyBloomIter.ErrF, h, hc],
          fun h hc => by simp [LazyBloomIter.ErrF, h, hc]⟩

/-- Witness for C7: all three delegation cases at concrete cursors
(note the cursor-level error wins over the held page's error in the
first case). -/
theorem claim_C7_witness :
    c7a.ErrF = some ErrKind.headerErr ∧
    c7b.ErrF = some ErrKind.decodeErr ∧
    c7c.ErrF = none :=
  ⟨(claim_C7_err_priority c7a ErrKind.headerErr ⟨0, 0, 3, 0, none, some .decodeErr⟩).1
      rfl,
   ((claim_C7_err_priority c7b ErrKind.headerErr
        ⟨0, 0, 3, 0, none, some .decodeErr⟩).2.1 rfl rfl).trans rfl,
   (claim_C7_err_priority c7c ErrKind.headerErr
        ⟨0, 0, 3, 0, none, some .decodeErr⟩).2.2 rfl rfl⟩

/-- C8: when `Seek` must load a page (different page or none held) and
the byte-stream open or the page-decoder request fails, the wrapped
error is recorded into cursor state and `Seek` returns without
repositioning: `curPageIndex` keeps its previous value and `curPage`
is untouched (in particular the held decoder's `Seek(byteOffset)` is
never applied). -/
theorem claim_C8_seek_failure (s : LazyBloomIter) (t : BloomOffset) (e : ErrKind)
    (hinit : s.inited = true)
    (hneed : s.curPageIndex ≠ t.Page ∨ s.curPage = none)
    (hfail : s.b.bloomsErr = some e ∨
             (s.b.bloomsErr = none ∧
              s.b.bloomPageDecoder t.Page s.m s.nextId = Except.error e)) :
    ((s.Seek t).err = some (ErrKind.wrap msgBlooms e) ∨
     (s.Seek t).err = some (ErrKind.wrap msgLoadPage e)) ∧
    (s.Seek t).curPageIndex = s.curPageIndex ∧
    (s.Seek t).curPage = s.curPage := by
  rw [LazyBloomIter.Seek_of_inited s t hinit]
  unfold LazyBloomIter.seekBody
  rw [if_pos (by simpa using hneed)]
  obtain ⟨hE, hB, hM, hN, hC, hI⟩ := (s.clearPTL.relinquishIfPooled_fields)
  unfold LazyBloomIter.loadPage
  rcases hfail with hb | ⟨hb, hf⟩
  · simp [hB, hb, hC, hI]
  · simp [hB, hM, hN, hb, hf, hC, hI]

/-- Witness for C8: the page-decoder request for the oversized page
fails and the cursor records the wrapped error without repositioning. -/
theorem claim_C8_witness :
    ((c8state.Seek ⟨0, 0⟩).err = some (ErrKind.wrap msgBlooms ErrKind.pageTooLarge) ∨
     (c8state.Seek ⟨0, 0⟩).err = some (ErrKind.wrap msgLoadPage ErrKind.pageTooLarge)) ∧
    (c8state.Seek ⟨0, 0⟩).curPageIndex = c8state.curPageIndex ∧
    (c8state.Seek ⟨0, 0⟩).curPage = c8state.curPage :=
  claim_C8_seek_failure c8state ⟨0, 0⟩ ErrKind.pageTooLarge rfl
    (Or.inr rfl) (Or.inr ⟨rfl, rfl⟩)

/-- C9: after a pooled `Seek` that Relinquishes the held decoder and
then fails to acquire the target page (page-decoder request fails),
`curPage` still references the already-released decoder and
`curPageIndex` still holds the old index; a later `Seek` whose target
page equals that stale index skips acquisition (no events, no fresh
decoder identity) and repositions the released decoder, and a later
`Seek` to any other page Relinquishes that decoder a second time. -/
theorem claim_C9_stale_decoder (s : LazyBloomIter) (d : BloomPageDecoder)
    (t : BloomOffset) (e : ErrKind) (off2 : Nat) (q : BloomOffset)
    (hinit : s.inited = true) (hpool : s.usePool = true)
    (hcur : s.curPage = some d) (hdiff : s.curPageIndex ≠ t.Page)
    (hr : s.b.bloomsErr = none)
    (hf : s.b.bloomPageDecoder t.Page s.m s.nextId = Except.error e)
    (hq : s.curPageIndex ≠ q.Page) :
    (s.Seek t).curPage = some d ∧
    (s.Seek t).curPageIndex = s.curPageIndex ∧
    countRelinquish d.id (s.Seek t).events = countRelinquish d.id s.events + 1 ∧
    ((s.Seek t).Seek ⟨s.curPageIndex, off2⟩).curPage = some (d.seek off2) ∧
    ((s.Seek t).Seek ⟨s.curPageIndex, off2⟩).nextId = (s.Seek t).nextId ∧
    ((s.Seek t).Seek ⟨s.curPageIndex, off2⟩).events = (s.Seek t).events ∧
    countRelinquish d.id ((s.Seek t).Seek q).events
      = countRelinquish d.id s.events + 2 := by
  have hseek1 : s.Seek t =
      { s.clearPTL with
        err := some (.wrap msgLoadPage e),
        events := s.clearPTL.events ++
          [Event.relinquish d.id, Event.openStream, Event.requestPage t.Page] } := by
    rw [LazyBloomIter.Seek_of_inited s t hinit]
    exact LazyBloomIter.seekBody_change_factory_err s.clearPTL d t e
      (by simpa using hcur) (by simpa using hpool) (by simpa using hdiff)
      (by simpa using hr) (by simpa using hf)
  have h1 : (s.Seek t).curPage = some d := by rw [hseek1]; simpa using hcur
  have h2 : (s.Seek t).curPageIndex = s.curPageIndex := by rw [hseek1]; simp
  have h3 : countRelinquish d.id (s.Seek t).events
      = countRelinquish d.id s.events + 1 := by
    rw [hseek1]; simp [countRelinquish_append]
  have hin1 : (s.Seek t).inited = true := by rw [hseek1]; simpa using hinit
  have hpool1 : (s.Seek t).usePool = true := by rw [hseek1]; simpa using hpool
  have hr1 : (s.Seek t).b.bloomsErr = none := by rw [hseek1]; simpa using hr
  obtain ⟨h4, h6, h5, _⟩ := LazyBloomIter.Seek_same_page (s.Seek t) d
      ⟨s.curPageIndex, off2⟩ hin1 h1 (by simpa using h2)
  have h7 : ((s.Seek t).Seek q).events
      = (s.Seek t).events ++ [Event.relinquish d.id, Event.openStream,
                              Event.requestPage q.Page] :=
    LazyBloomIter.Seek_change_events (s.Seek t) d q hin1 h1 hpool1
      (by rw [h2]; exact hq) hr1
  refine ⟨h1, h2, h3, h4, h5, by rw [h6], ?_⟩
  rw [h7, countRelinquish_append, h3]
  simp

/-- Witness for C9: the concrete double-release run on `blkC1`
(decoder 0 held for page 1; failed Seek to oversized page 0; re-seek
of the released decoder; second Relinquish on Seek to page 2). -/
theorem claim_C9_witness :
    (c1s1.Seek ⟨0, 5⟩).curPage = some ⟨0, 1, 3, 0, none, none⟩ ∧
    (c1s1.Seek ⟨0, 5⟩).curPageIndex = c1s1.curPageIndex ∧
    countRelinquish 0 (c1s1.Seek ⟨0, 5⟩).events
      = countRelinquish 0 c1s1.events + 1 ∧
    ((c1s1.Seek ⟨0, 5⟩).Seek ⟨c1s1.curPageIndex, 7⟩).curPage
      = some (BloomPageDecoder.seek ⟨0, 1, 3, 0, none, none⟩ 7) ∧
    ((c1s1.Seek ⟨0, 5⟩).Seek ⟨c1s1.curPageIndex, 7⟩).nextId
      = (c1s1.Seek ⟨0, 5⟩).nextId ∧
    ((c1s1.Seek ⟨0, 5⟩).Seek ⟨c1s1.curPageIndex, 7⟩).events
      = (c1s1.Seek ⟨0, 5⟩).events ∧
    countRelinquish 0 ((c1s1.Seek ⟨0, 5⟩).Seek ⟨2, 0⟩).events
      = countRelinquish 0 c1s1.events + 2 :=
  claim_C9_stale_decoder c1s1 ⟨0, 1, 3, 0, none, none⟩ ⟨0, 5⟩
    ErrKind.pageTooLarge 7 ⟨2, 0⟩ (by decide) (by decide) (by decide)
    (by decide) (by decide) rfl (by decide)

/-- C10: `At()` dereferences the held decoder unconditionally; in the
embedding it is partial — `none` exactly when no page decoder is held
(the Go nil-pointer dereference case) — and in particular undefined on
a freshly constructed cursor, which holds no decoder. -/
theorem claim_C10_at_partial (b : Block) (pool : Bool) (maxSize : Nat)
    (s : LazyBloomIter) :
    (NewLazyBloomIter b pool maxSize).curPage = none ∧
    (NewLazyBloomIter b pool maxSize).At = none ∧
    (s.At = none ↔ s.curPage = none) := by
  refine ⟨rfl, rfl, ?_⟩
  cases hc : s.curPage <;> simp [LazyBloomIter.At, hc]

/-- C1 (violated by the code): in the concrete pooled run on `blkC1`
(max size 10, page sizes [100, 5, 5]; Seek page 1, Seek page 0, Seek
page 2), the failed Seek to oversized page 0 Relinquishes page 1's
decoder (identity 0) while the cursor still holds it and has not moved
off page 1 (released early), and the following Seek to page 2
Relinquishes the same decoder a second time: release count 2, not
exactly once at the move-off point. -/
theorem claim_C1_release_violated :
    c1s2.curPage = some ⟨0, 1, 3, 0, none, none⟩ ∧
    c1s2.curPageIndex = 1 ∧
    countRelinquish 0 c1s2.events = 1 ∧
    countRelinquish 0 c1s3.events = 2 := by
  decide
